import Mathlib

/-!
Verification development for the walkie-lazy connection subsystem.

The definitions below are a shallow embedding of the TypeScript sources:

* `src/hooks/useConnectionManager.ts` — the connection lifecycle manager
  (state machine, retry scheduling, timers, network handling);
* `src/lib/firebase.ts` — token request coalescing and the XOR token
  storage encryption;
* `src/lib/tokenValidator.ts` — the token validation service;
* `src/lib/rateLimiter.ts` — the per-address endpoint rate limiter.

Timers are modelled by `Option Nat` fields (`some d` means the timer is
armed with delay `d`; a timer that fires or is cleared becomes `none`),
asynchronous callbacks by explicit events, and the single-threaded event
loop by a step function applying one event at a time.
-/

namespace WalkieLazy

/-- `ConnectionState` from `src/types/connection.ts`. -/
inductive ConnState where
  | disconnected
  | connecting
  | connected
  | reconnecting
  | error
deriving DecidableEq

/-- `ConnectionError` from `src/types/connection.ts`. -/
inductive ConnError where
  | token_error
  | peer_error
  | network_error
  | authentication_error
  | unknown_error
deriving DecidableEq

/-- `ConnectionStatus` from `src/types/connection.ts`; optional fields are
`Option`, absent fields are `none`. -/
structure ConnectionStatus where
  state : ConnState
  peerId : Option String := none
  remotePeerId : Option String := none
  error : Option ConnError := none
  retryCount : Nat := 0
  lastError : Option String := none
  isOnline : Bool := true
deriving DecidableEq

/-- `TokenManager` from `src/types/connection.ts`. The
`connectionStatus` union of the strings online and offline is a `Bool`
(`true` meaning online). -/
structure TokenManager where
  token : Option String := none
  isTokenValid : Bool := false
  isLoading : Bool := true
  error : Option String := none
  connectionStatus : Bool := true
deriving DecidableEq

/-- `RetryConfig` from `src/types/connection.ts`; times in milliseconds. -/
structure RetryConfig where
  baseDelay : Nat
  maxDelay : Nat
  backoffMultiplier : Nat
  maxRetries : Nat
deriving DecidableEq

/-- `TimeoutConfig` from `src/types/connection.ts`. -/
structure TimeoutConfig where
  connectionTimeout : Nat
  tokenValidationTimeout : Nat
  keepAliveInterval : Nat
deriving DecidableEq

/-- The hook arguments plus the merged configuration of
`useConnectionManager(peerId, remotePeerId, config)`. -/
structure Params where
  peerId : String
  remotePeerId : String
  retry : RetryConfig
  timeout : TimeoutConfig
  tokenRefreshThreshold : Nat
  autoReconnect : Bool
deriving DecidableEq

/-- The mutable state of one `useConnectionManager` instance: the two state
records plus the four timer refs and the peer handle ref
(`peer = true` iff `peerRef.current` is non-null). Each `Option Nat` timer
field is `some d` exactly when that timer is outstanding. -/
structure ManagerState where
  status : ConnectionStatus
  tokenManager : TokenManager
  retryTimer : Option Nat := none
  connectionTimer : Option Nat := none
  tokenRefreshTimer : Option Nat := none
  keepAliveTimer : Option Nat := none
  peer : Bool := false
deriving DecidableEq

/-- The initial `useState` values of the hook (`b` is `navigator.onLine`). -/
def initState (b : Bool) : ManagerState :=
  { status := { state := .disconnected, retryCount := 0, isOnline := b },
    tokenManager := {} }

/-- `scheduleRetry` (useConnectionManager.ts:561-615): at or past
`maxRetries` it settles in a terminal error; otherwise it arms the retry
timer with the exponential-backoff delay. -/
def scheduleRetry (p : Params) (s : ManagerState) : ManagerState :=
  if s.status.retryCount ≥ p.retry.maxRetries then
    { s with status := { s.status with
        state := .error,
        error := some .network_error,
        lastError := some "Max retry attempts reached" } }
  else
    { s with retryTimer := some (min
        (p.retry.baseDelay * p.retry.backoffMultiplier ^ s.status.retryCount)
        p.retry.maxDelay) }

/-- `startKeepAlive` (useConnectionManager.ts:621-641): clears and re-arms
the keep-alive timer. -/
def startKeepAlive (p : Params) (s : ManagerState) : ManagerState :=
  { s with keepAliveTimer := some p.timeout.keepAliveInterval }

/-- The synchronous prefix of `connectToRemotePeer`
(useConnectionManager.ts:407-446): no-op when the peer handle is missing or
`remotePeerId` is empty; otherwise it sets `state = connecting`, clears any
existing connection timer and arms a fresh connection timeout. -/
def connectStart (p : Params) (s : ManagerState) : ManagerState :=
  if s.peer = false ∨ p.remotePeerId = "" then s
  else
    { s with status := { s.status with state := .connecting },
             connectionTimer := some p.timeout.connectionTimeout }

/-- The connection-timeout callback (useConnectionManager.ts:429-446): only
an armed timer can fire; it moves to `error(network_error)` and, with
`autoReconnect`, schedules a retry. -/
def connectionTimeoutFire (p : Params) (s : ManagerState) : ManagerState :=
  if s.connectionTimer = none then s
  else if p.autoReconnect then
    scheduleRetry p
      { s with connectionTimer := none,
               status := { s.status with
                 state := .error,
                 error := some .network_error,
                 lastError := some "Connection timeout" } }
  else
    { s with connectionTimer := none,
             status := { s.status with
               state := .error,
               error := some .network_error,
               lastError := some "Connection timeout" } }

/-- The success continuation of `connectToRemotePeer`
(useConnectionManager.ts:450-471): guarded on an outstanding attempt; it
clears the connection timer, sets `state = connected` (keeping the rest of
the status record) and starts keep-alive. -/
def connectOk (p : Params) (s : ManagerState) : ManagerState :=
  if s.connectionTimer = none then s
  else
    startKeepAlive p
      { s with connectionTimer := none,
               status := { s.status with
                 state := .connected,
                 remotePeerId := some p.remotePeerId } }

/-- `disconnect` (useConnectionManager.ts:499-555): clears the four timers,
destroys the peer handle, resets the status to a fresh disconnected record
(`b` is `navigator.onLine`) and clears the token state (the
`connectionStatus` mirror is kept by the spread). -/
def disconnect (b : Bool) (s : ManagerState) : ManagerState :=
  { status := { state := .disconnected, retryCount := 0, isOnline := b },
    tokenManager := { s.tokenManager with
      token := none, isTokenValid := false, isLoading := false, error := none },
    retryTimer := none,
    connectionTimer := none,
    tokenRefreshTimer := none,
    keepAliveTimer := none,
    peer := false }

/-- The retry-timer callback (useConnectionManager.ts:595-605): only an
armed timer can fire; it enters `reconnecting`, increments `retryCount`
and invokes `connectToRemotePeer`. -/
def retryFire (p : Params) (s : ManagerState) : ManagerState :=
  if s.retryTimer = none then s
  else
    connectStart p
      { s with retryTimer := none,
               status := { s.status with
                 state := .reconnecting,
                 retryCount := s.status.retryCount + 1 } }

/-- `handleOnlineStatusChange` (useConnectionManager.ts:647-681), with `b`
the new `navigator.onLine` value: mirrors `b` into both records and, when
online while in `error` with `autoReconnect`, resets `retryCount`, enters
`reconnecting` and invokes `connectToRemotePeer`. -/
def handleOnlineStatusChange (p : Params) (b : Bool) (s : ManagerState) :
    ManagerState :=
  if b = true ∧ s.status.state = ConnState.error ∧ p.autoReconnect = true then
    connectStart p
      { s with status := { s.status with
          isOnline := b, state := .reconnecting, error := none, retryCount := 0 },
               tokenManager := { s.tokenManager with connectionStatus := b } }
  else
    { s with status := { s.status with isOnline := b },
             tokenManager := { s.tokenManager with connectionStatus := b } }

/-- `initializePeer` (useConnectionManager.ts:290-405): an empty `peerId` or
a constructor failure yields `error(peer_error)`; success stores the handle
(`ok` tells whether `new Peer(peerId)` succeeded). -/
def initPeer (p : Params) (ok : Bool) (s : ManagerState) : ManagerState :=
  if p.peerId = "" then
    { s with status := { s.status with
        state := .error, error := some .peer_error,
        lastError := some "Peer ID is required" } }
  else if ok then { s with peer := true }
  else
    { s with status := { s.status with
        state := .error, error := some .peer_error,
        lastError := some "Failed to initialize peer" } }

/-- The peer `open` handler (useConnectionManager.ts:310-324): records the
id, enters `connected`, clears the error and resets `retryCount`. -/
def peerOpen (p : Params) (s : ManagerState) : ManagerState :=
  if s.peer then
    { s with status := { s.status with
        state := .connected, peerId := some p.peerId,
        error := none, retryCount := 0 } }
  else s

/-- The peer `error` handler (useConnectionManager.ts:326-341). -/
def peerErrorEv (msg : String) (s : ManagerState) : ManagerState :=
  if s.peer then
    { s with status := { s.status with
        state := .error, error := some .peer_error, lastError := some msg } }
  else s

/-- The peer `close` and `disconnected` handlers
(useConnectionManager.ts:343-369): both set `state = disconnected` and clear
the error, leaving the rest of the status record in place. -/
def peerCloseEv (s : ManagerState) : ManagerState :=
  if s.peer then
    { s with status := { s.status with state := .disconnected, error := none } }
  else s

/-- The keep-alive callback (useConnectionManager.ts:630-640): re-arms only
while still `connected`, otherwise it self-cancels. -/
def keepAliveFire (p : Params) (s : ManagerState) : ManagerState :=
  if s.keepAliveTimer = none then s
  else if s.status.state = ConnState.connected then
    startKeepAlive p { s with keepAliveTimer := none }
  else { s with keepAliveTimer := none }

/-- `scheduleTokenValidation` (useConnectionManager.ts:246-284): clears and
re-arms the token validation/renewal timer. -/
def scheduleTokenValidation (p : Params) (s : ManagerState) : ManagerState :=
  { s with tokenRefreshTimer := some p.tokenRefreshThreshold }

/-- The token-validation timer callback (useConnectionManager.ts:251-283),
with `valid` the result of the validation call: an invalid token is cleared,
a valid one re-arms the timer. -/
def tokenValidationFire (p : Params) (valid : Bool) (s : ManagerState) :
    ManagerState :=
  if s.tokenRefreshTimer = none then s
  else if s.tokenManager.token.isSome ∧ s.tokenManager.isTokenValid then
    if valid then { s with tokenRefreshTimer := some p.tokenRefreshThreshold }
    else
      { s with tokenRefreshTimer := none,
               tokenManager := { s.tokenManager with
                 token := none, isTokenValid := false,
                 error := some "Token validation failed" } }
  else { s with tokenRefreshTimer := none }

/-- The settled `initializeToken` success path
(useConnectionManager.ts:127-178): stores the token atomically and schedules
validation (`b` is `navigator.onLine`). -/
def initTokenOk (p : Params) (tok : String) (valid : Bool) (b : Bool)
    (s : ManagerState) : ManagerState :=
  scheduleTokenValidation p
    { s with tokenManager :=
        { token := some tok, isTokenValid := valid, isLoading := false,
          error := none, connectionStatus := b } }

/-- The settled `initializeToken` failure path
(useConnectionManager.ts:165-177). -/
def initTokenFail (msg : String) (s : ManagerState) : ManagerState :=
  { s with tokenManager := { s.tokenManager with
      isLoading := false, error := some msg, isTokenValid := false } }

/-- One observable event of the manager: a command, a timer firing, or an
external callback settling. -/
inductive Event where
  | initPeerEv (ok : Bool)
  | peerOpenEv
  | peerErrorEvt (msg : String)
  | peerCloseEvt
  | connect
  | connTimeout
  | connOk
  | retryTimerFire
  | keepAliveTimerFire
  | online (b : Bool)
  | disconnectEv (b : Bool)
  | tokenInitOk (tok : String) (valid : Bool) (b : Bool)
  | tokenInitFail (msg : String)
  | tokenValidationTimerFire (valid : Bool)

/-- The event-loop step: dispatches one event to the handler it triggers. -/
def step (p : Params) (s : ManagerState) : Event → ManagerState
  | .initPeerEv ok => initPeer p ok s
  | .peerOpenEv => peerOpen p s
  | .peerErrorEvt msg => peerErrorEv msg s
  | .peerCloseEvt => peerCloseEv s
  | .connect => connectStart p s
  | .connTimeout => connectionTimeoutFire p s
  | .connOk => connectOk p s
  | .retryTimerFire => retryFire p s
  | .keepAliveTimerFire => keepAliveFire p s
  | .online b => handleOnlineStatusChange p b s
  | .disconnectEv b => disconnect b s
  | .tokenInitOk tok valid b => initTokenOk p tok valid b s
  | .tokenInitFail msg => initTokenFail msg s
  | .tokenValidationTimerFire valid => tokenValidationFire p valid s

/-- Runs a list of events from a state. -/
def runEvents (p : Params) (s : ManagerState) : List Event → ManagerState
  | [] => s
  | e :: es => runEvents p (step p s e) es

/-- The states a manager instance can reach from its initial state. -/
inductive Reachable (p : Params) : ManagerState → Prop where
  | init (b : Bool) : Reachable p (initState b)
  | step {s : ManagerState} (e : Event) :
      Reachable p s → Reachable p (step p s e)

/-- Number of outstanding timers among the four timer refs. -/
def outstandingTimers (s : ManagerState) : Nat :=
  (if s.retryTimer.isSome then 1 else 0) +
  (if s.connectionTimer.isSome then 1 else 0) +
  (if s.tokenRefreshTimer.isSome then 1 else 0) +
  (if s.keepAliveTimer.isSome then 1 else 0)

/-- `RetryPolicy` (spec, data model): the Retry Controller configuration
with the delay and multiplier fields over `ℚ`, modelling the JS `number`
type of the `RetryConfig` fields in `src/types/connection.ts`, which
admits fractional values; the `Nat`-valued `RetryConfig` above is its
restriction to the integer policies the hook state machine is exercised
at. -/
structure RetryPolicy where
  baseDelay : ℚ
  maxDelay : ℚ
  backoffMultiplier : ℚ
  maxRetries : Nat
deriving DecidableEq

/-- The backoff delay computed by `scheduleRetry`
(useConnectionManager.ts:580-583):
`Math.min(baseDelay * Math.pow(backoffMultiplier, attempt), maxDelay)`
over the JS number domain. -/
def nextDelay (r : RetryPolicy) (attempt : Nat) : ℚ :=
  min (r.baseDelay * r.backoffMultiplier ^ attempt) r.maxDelay

/-- The retry decision taken by `scheduleRetry`
(useConnectionManager.ts:566): another retry happens exactly when the
attempt count is below `maxRetries`. -/
def shouldRetry (r : RetryConfig) (attempt : Nat) : Bool :=
  decide (attempt < r.maxRetries)

/-- The default configuration of the hook (useConnectionManager.ts:30-53),
with the `peer1`/`peer2` ids used by the tests of the repository. -/
def defaultParams : Params :=
  { peerId := "peer1", remotePeerId := "peer2",
    retry := { baseDelay := 1000, maxDelay := 30000,
               backoffMultiplier := 2, maxRetries := 5 },
    timeout := { connectionTimeout := 30000, tokenValidationTimeout := 10000,
                 keepAliveInterval := 30000 },
    tokenRefreshThreshold := 300000,
    autoReconnect := true }

/-- A persistent-failure run under the default configuration: the peer
opens, a connection attempt starts, the connection timeout fires, and then
`n` retry cycles each let the armed retry timer fire and the subsequent
attempt time out again. -/
def failureTrace (n : Nat) : List Event :=
  [.initPeerEv true, .connect, .connTimeout] ++
    (List.range n).flatMap fun _ => [.retryTimerFire, .connTimeout]

/-- A positive retry policy whose base delay exceeds its delay cap. -/
def clampedPolicy : RetryPolicy :=
  { baseDelay := 2, maxDelay := 1, backoffMultiplier := 2, maxRetries := 5 }

/-- A positive retry policy with a fractional multiplier below 1. -/
def halvingPolicy : RetryPolicy :=
  { baseDelay := 1000, maxDelay := 30000, backoffMultiplier := 1/2,
    maxRetries := 5 }

/-- The default retry policy of the hook, over the JS number domain. -/
def defaultPolicy : RetryPolicy :=
  { baseDelay := 1000, maxDelay := 30000, backoffMultiplier := 2,
    maxRetries := 5 }

/-- The manager state after the peer opens and a connection attempt
succeeds: `state = connected` with the peer handle live. -/
def connectedState : ManagerState :=
  runEvents defaultParams (initState true) [.initPeerEv true, .connect, .connOk]

/-- The manager state after the peer opens and a connection attempt times
out: `state = error` with the peer handle live. -/
def errorState : ManagerState :=
  runEvents defaultParams (initState true) [.initPeerEv true, .connect, .connTimeout]

/-- The status invariant that `useConnectionManager` maintains on the error
field: whenever `state = error` the error kind is present. -/
def errorKindSet (s : ManagerState) : Prop :=
  s.status.state = ConnState.error → s.status.error.isSome

/-! ### Token request coalescing (`src/lib/firebase.ts`)

`requestForToken` (firebase.ts:95-226) keeps a module-level
`tokenRequestPromise`; a call finding it non-null returns it unchanged,
otherwise it starts one underlying acquisition, stores the fresh promise and
clears it in the `finally` clause when the request settles. The body of the
acquisition (permission checks, service-worker sync, the FCM `getToken`
call) is abstracted to one counted execution: only the singleton discipline
matters here. Promises are identified by numbers. -/

/-- The module-level state of `src/lib/firebase.ts` relevant to request
coalescing. -/
structure TokenModuleState where
  tokenRequestPromise : Option Nat := none
  providerCalls : Nat := 0
  nextPromiseId : Nat := 0
deriving DecidableEq

/-- `requestForToken` (firebase.ts:95-226): returns the pending promise when
one exists, otherwise registers a fresh one and starts one acquisition. -/
def requestForToken (s : TokenModuleState) : Nat × TokenModuleState :=
  match s.tokenRequestPromise with
  | some q => (q, s)
  | none =>
      (s.nextPromiseId,
       { tokenRequestPromise := some s.nextPromiseId,
         providerCalls := s.providerCalls + 1,
         nextPromiseId := s.nextPromiseId + 1 })

/-- The `finally` clause of `requestForToken` (firebase.ts:220-222): the
pending slot is cleared when the request settles, success or failure. -/
def settleTokenRequest (s : TokenModuleState) : TokenModuleState :=
  { s with tokenRequestPromise := none }

/-! ### Token storage encryption (`src/lib/firebase.ts:38-50`)

`encryptToken`/`decryptToken` map each UTF-16 code unit of the token
through XOR with the code unit of the fixed key at the same index modulo
the key length; `String.fromCharCode` reduces its argument modulo 2^16.
Strings are modelled as their lists of code units (each below 2^16). -/

/-- The fixed key `"walkie-lazy-token-key"` (firebase.ts:36) as its list of
code units. -/
def encryptionKey : List Nat := "walkie-lazy-token-key".toList.map Char.toNat

/-- `encryptionKey.charCodeAt(index % encryptionKey.length)`. -/
def keyCodeAt (i : Nat) : Nat :=
  encryptionKey.getD (i % encryptionKey.length) 0

/-- The indexed map shared by `encryptToken` and `decryptToken`: XOR each
code unit with the key code unit at its index, reduced modulo 2^16 by
`String.fromCharCode`. -/
def xorWithKey : Nat → List Nat → List Nat
  | _, [] => []
  | i, c :: rest => (c ^^^ keyCodeAt i) % 65536 :: xorWithKey (i + 1) rest

/-- `encryptToken` (firebase.ts:38-43). -/
def encryptToken (t : List Nat) : List Nat := xorWithKey 0 t

/-- `decryptToken` (firebase.ts:45-50); textually the same map as
`encryptToken`. -/
def decryptToken (t : List Nat) : List Nat := xorWithKey 0 t

end WalkieLazy

namespace TokenValidator

/-! ### Token validation service (`src/lib/tokenValidator.ts`)

The Firestore collections are modelled as an environment: `blacklist` is
the `blacklistedTokens` collection, `tokens` the token registry (each
document carrying `createdAt` and `invalidated`), `now` the value of
`Date.now()`, and `adminReady` whether `getFirebaseAdmin()` returns a
handle (each checker falls back to a fixed answer when it does not). -/

/-- `TOKEN_EXPIRATION_TIME` (tokenValidator: 24 hours in milliseconds). -/
def TOKEN_EXPIRATION_TIME : Nat := 24 * 60 * 60 * 1000

/-- A document of the `tokens` collection as read by the validator. -/
structure TokenRecord where
  createdAt : Nat
  invalidated : Bool
deriving DecidableEq

/-- The remote state the validator consults. -/
structure ValidationEnv where
  adminReady : Bool
  blacklist : List String
  tokens : List (String × TokenRecord)
  now : Nat

/-- `isValidTokenFormat`: a string of length between 50 and 500. -/
def isValidTokenFormat (token : String) : Bool :=
  decide (50 ≤ token.length) && decide (token.length ≤ 500)

/-- `isTokenBlacklisted`: membership in `blacklistedTokens`; `false` when
the admin handle is missing or on error (permissive). -/
def isTokenBlacklisted (env : ValidationEnv) (token : String) : Bool :=
  env.adminReady && env.blacklist.contains token

/-- `isTokenInFirebase`: existence in the `tokens` collection; `false`
without the admin handle. -/
def isTokenInFirebase (env : ValidationEnv) (token : String) : Bool :=
  env.adminReady && (env.tokens.lookup token).isSome

/-- `isTokenInvalidated`: the `invalidated` flag of the document; `false` when
the document or the admin handle is missing. -/
def isTokenInvalidated (env : ValidationEnv) (token : String) : Bool :=
  if env.adminReady then
    match env.tokens.lookup token with
    | none => false
    | some r => r.invalidated
  else false

/-- `isTokenExpired`: age above 24 hours; `true` (conservative) when the
document or the admin handle is missing. -/
def isTokenExpired (env : ValidationEnv) (token : String) : Bool :=
  if env.adminReady then
    match env.tokens.lookup token with
    | none => true
    | some r => decide (env.now - r.createdAt > TOKEN_EXPIRATION_TIME)
  else true

/-- `isTokenValidInMessaging`: a placeholder returning `true`. -/
def isTokenValidInMessaging (_env : ValidationEnv) (_token : String) : Bool :=
  true

/-- `validateToken` (tokenValidator): format gate, then the conjunction of
the five remote checks. -/
def validateToken (env : ValidationEnv) (token : String) : Bool :=
  isValidTokenFormat token &&
  (!isTokenBlacklisted env token && isTokenInFirebase env token &&
   !isTokenInvalidated env token && !isTokenExpired env token &&
   isTokenValidInMessaging env token)

/-- A 50-character token, the shortest length the format check accepts. -/
def sampleToken : String :=
  "aaaaaaaaaaaaaaaaaaaaaaaaaaaaaaaaaaaaaaaaaaaaaaaaaa"

/-- A concrete environment whose registry holds `sampleToken`, fresh and
not invalidated. -/
def sampleEnv : ValidationEnv :=
  { adminReady := true, blacklist := ["bad"],
    tokens := [(sampleToken, { createdAt := 0, invalidated := false })],
    now := 1000 }

end TokenValidator

namespace RateLimiter

/-! ### Per-address rate limiter (`src/lib/rateLimiter.ts`)

The in-memory `rateLimitStore` object is a list of key/entry pairs in
insertion order; JavaScript runtime errors surface as `Except.error`. -/

/-- One endpoint configuration of `RATE_LIMITS`. -/
structure RateLimitConfig where
  windowMs : Nat
  max : Nat
deriving DecidableEq

/-- The `RATE_LIMITS` record: windows of 15 minutes, limits 10/20/5/30. -/
def RATE_LIMITS : String → Option RateLimitConfig := fun k =>
  if k = "token_registration" then some { windowMs := 900000, max := 10 }
  else if k = "token_exchange" then some { windowMs := 900000, max := 20 }
  else if k = "token_revocation" then some { windowMs := 900000, max := 5 }
  else if k = "token_validation" then some { windowMs := 900000, max := 30 }
  else none

/-- One entry of `rateLimitStore`. -/
structure RateLimitEntry where
  count : Nat
  windowStart : Nat
deriving DecidableEq

/-- The `rateLimitStore` object, keys in insertion order. -/
def Store := List (String × RateLimitEntry)

/-- The result object of `rateLimit`; fields absent from a given return
site are `none`. -/
structure RateLimitResult where
  allowed : Bool
  retryAfter : Option Nat := none
  limit : Option Nat := none
  remaining : Option Nat := none
  reset : Option Nat := none
deriving DecidableEq

/-- Updates the binding of `key` in place, or appends a fresh one, as
property assignment on the store object does. -/
def upsert : List (String × RateLimitEntry) → String → RateLimitEntry →
    List (String × RateLimitEntry)
  | [], k, e => [(k, e)]
  | (k0, e0) :: rest, k, e =>
      if k0 = k then (k, e) :: rest else (k0, e0) :: upsert rest k e

/-- JavaScript `String.prototype.split` with a one-character separator,
over the character list (structurally recursive). -/
def splitChars (sep : Char) : List Char → List (List Char)
  | [] => [[]]
  | c :: rest =>
      match splitChars sep rest with
      | [] => if c = sep then [[], []] else [[c]]
      | h :: t => if c = sep then [] :: h :: t else (c :: h) :: t

/-- `storeKey.split('_')`. -/
def splitKey (s : String) : List String :=
  (splitChars '_' s.toList).map fun l => String.mk l

/-- The cleanup loop of `rateLimit` (rateLimiter:49-54): for every stored
key it reads `RATE_LIMITS[storeKey.split('_')[1]].windowMs` and deletes the
entry when its window has passed. When the lookup yields no configuration
(JavaScript `undefined`), reading `.windowMs` raises a `TypeError`. -/
def cleanupStore (now : Nat) : List (String × RateLimitEntry) →
    Except String (List (String × RateLimitEntry))
  | [] => .ok []
  | (k, e) :: rest =>
      match ((splitKey k).get? 1).bind RATE_LIMITS with
      | none =>
          .error "TypeError: Cannot read properties of undefined (reading windowMs)"
      | some c =>
          (cleanupStore now rest).map fun r =>
            if now - e.windowStart > c.windowMs then r else (k, e) :: r

/-- `rateLimit` (rateLimiter:37-97): unknown endpoint passes; then cleanup,
entry lookup or creation, window check, increment, and the limit check.
Subtractions that can go negative in JavaScript are taken over `Int` and
clamped exactly where `Math.max(0, ...)` does. -/
def rateLimit (ip : String) (endpointType : String) (now : Nat)
    (store : List (String × RateLimitEntry)) :
    Except String (RateLimitResult × List (String × RateLimitEntry)) :=
  match RATE_LIMITS endpointType with
  | none => .ok ({ allowed := true }, store)
  | some endpointConfig =>
      let key := ip ++ "_" ++ endpointType
      match cleanupStore now store with
      | .error e => .error e
      | .ok store1 =>
          let entry := (store1.lookup key).getD { count := 0, windowStart := now }
          if now - entry.windowStart > endpointConfig.windowMs then
            .ok ({ allowed := true },
                 upsert store1 key { count := 1, windowStart := now })
          else
            let entry2 : RateLimitEntry := { entry with count := entry.count + 1 }
            if entry2.count > endpointConfig.max then
              let timeUntilReset :=
                endpointConfig.windowMs - (now - entry.windowStart)
              .ok ({ allowed := false,
                     retryAfter := some ((timeUntilReset + 999) / 1000),
                     limit := some endpointConfig.max,
                     remaining := some
                       (Int.toNat ((endpointConfig.max : Int) - entry2.count + 1)),
                     reset := some
                       (entry.windowStart + endpointConfig.windowMs - now) },
                   upsert store1 key entry2)
            else
              .ok ({ allowed := true,
                     remaining := some
                       (Int.toNat ((endpointConfig.max : Int) - entry2.count)),
                     reset := some
                       (entry.windowStart + endpointConfig.windowMs - now) },
                   upsert store1 key entry2)

end RateLimiter

namespace WalkieLazy

/-- Claim C2: from every starting state, `disconnect()` results in
`state = disconnected` with `retryCount = 0`, all four timers cancelled
(zero outstanding), the peer handle destroyed, and the token state
cleared. -/
theorem disconnect_resets_everything (p : Params) (b : Bool) (s : ManagerState) :
    step p s (.disconnectEv b) = disconnect b s ∧
    (disconnect b s).status.state = ConnState.disconnected ∧
    (disconnect b s).status.retryCount = 0 ∧
    outstandingTimers (disconnect b s) = 0 ∧
    (disconnect b s).peer = false ∧
    (disconnect b s).tokenManager.token = none ∧
    (disconnect b s).tokenManager.isTokenValid = false ∧
    (disconnect b s).tokenManager.isLoading = false ∧
    (disconnect b s).tokenManager.error = none :=
  ⟨rfl, rfl, rfl, rfl, rfl, rfl, rfl, rfl, rfl⟩

/-- Claim C3: under the default policy (1000/2/30000/5) a persistent
failure produces exactly five retry cycles with armed delays
1000, 2000, 4000, 8000, 16000 ms, then settles permanently in `error` with
`retryCount = 5`, no armed timer and no further automatic retry; the retry
decision is `shouldRetry attempt = attempt < maxRetries`. -/
theorem retry_cycle_scenario :
    (runEvents defaultParams (initState true) (failureTrace 0)).retryTimer = some 1000 ∧
    (runEvents defaultParams (initState true) (failureTrace 1)).retryTimer = some 2000 ∧
    (runEvents defaultParams (initState true) (failureTrace 2)).retryTimer = some 4000 ∧
    (runEvents defaultParams (initState true) (failureTrace 3)).retryTimer = some 8000 ∧
    (runEvents defaultParams (initState true) (failureTrace 4)).retryTimer = some 16000 ∧
    (runEvents defaultParams (initState true) (failureTrace 5)).status.state = ConnState.error ∧
    (runEvents defaultParams (initState true) (failureTrace 5)).status.retryCount = 5 ∧
    (runEvents defaultParams (initState true) (failureTrace 5)).retryTimer = none ∧
    (runEvents defaultParams (initState true) (failureTrace 5)).status.lastError =
      some "Max retry attempts reached" ∧
    step defaultParams (runEvents defaultParams (initState true) (failureTrace 5))
      .retryTimerFire = runEvents defaultParams (initState true) (failureTrace 5) ∧
    step defaultParams (runEvents defaultParams (initState true) (failureTrace 5))
      .connTimeout = runEvents defaultParams (initState true) (failureTrace 5) ∧
    shouldRetry defaultParams.retry 5 = false ∧
    shouldRetry defaultParams.retry 4 = true := by
  decide

/-- Claim C4 counterexample: two all-positive policies on which one
conjunct each fails — with `baseDelay = 2 > 1 = maxDelay` the attempt-0
delay is `maxDelay`, not `baseDelay`; with the fractional multiplier `1/2`
(admitted by the JS `number` policy fields) the delay strictly decreases
from attempt 0 to attempt 1, both attempts below `maxRetries`. -/
theorem nextDelay_positive_policy_counterexample :
    (0 < clampedPolicy.baseDelay ∧ 0 < clampedPolicy.backoffMultiplier ∧
     0 < clampedPolicy.maxDelay ∧ 0 < clampedPolicy.maxRetries ∧
     nextDelay clampedPolicy 0 ≠ clampedPolicy.baseDelay) ∧
    (0 < halvingPolicy.baseDelay ∧ 0 < halvingPolicy.backoffMultiplier ∧
     0 < halvingPolicy.maxDelay ∧ 1 < halvingPolicy.maxRetries ∧
     nextDelay halvingPolicy 1 < nextDelay halvingPolicy 0) := by
  norm_num [nextDelay, clampedPolicy, halvingPolicy]

/-- Claim C4 (amended): for every policy the retry delay equals
`min (baseDelay * backoffMultiplier ^ attempt) maxDelay`; `nextDelay 0`
equals `baseDelay` provided `baseDelay ≤ maxDelay`; and the delay is
monotonically non-decreasing in the attempt provided `baseDelay ≥ 0` and
`backoffMultiplier ≥ 1` — each proviso being exactly what its
counterexample policy violates. -/
theorem nextDelay_formula_monotone (r : RetryPolicy) :
    (∀ attempt, nextDelay r attempt =
      min (r.baseDelay * r.backoffMultiplier ^ attempt) r.maxDelay) ∧
    (r.baseDelay ≤ r.maxDelay → nextDelay r 0 = r.baseDelay) ∧
    (0 ≤ r.baseDelay → 1 ≤ r.backoffMultiplier →
      ∀ a b, a ≤ b → nextDelay r a ≤ nextDelay r b) := by
  refine ⟨fun _ => rfl, ?_, ?_⟩
  · intro hb
    unfold nextDelay
    rw [pow_zero, mul_one]
    exact min_eq_left hb
  · intro hb0 hm a b hab
    unfold nextDelay
    exact min_le_min
      (mul_le_mul_of_nonneg_left (pow_le_pow_right₀ hm hab) hb0) le_rfl

/-- Witness for `nextDelay_formula_monotone` at the default policy. -/
theorem nextDelay_formula_monotone_witness :
    defaultPolicy.baseDelay ≤ defaultPolicy.maxDelay ∧
    0 ≤ defaultPolicy.baseDelay ∧ 1 ≤ defaultPolicy.backoffMultiplier ∧
    nextDelay defaultPolicy 0 = defaultPolicy.baseDelay ∧
    nextDelay defaultPolicy 2 ≤ nextDelay defaultPolicy 3 := by
  have h := nextDelay_formula_monotone defaultPolicy
  exact ⟨by norm_num [defaultPolicy], by norm_num [defaultPolicy],
    by norm_num [defaultPolicy], h.2.1 (by norm_num [defaultPolicy]),
    h.2.2 (by norm_num [defaultPolicy]) (by norm_num [defaultPolicy]) 2 3
      (by norm_num)⟩

/-- Claim C5 counterexample: invoking `connectToRemotePeer` while
`connected` is not a no-op — it changes the state back to `connecting` and
arms a fresh connection timer. -/
theorem connect_reentrancy_counterexample :
    connectedState.status.state = ConnState.connected ∧
    step defaultParams connectedState .connect ≠ connectedState ∧
    (step defaultParams connectedState .connect).status.state =
      ConnState.connecting ∧
    (step defaultParams connectedState .connect).connectionTimer = some 30000 := by
  decide

/-- Claim C5 (amended): `connectToRemotePeer` invoked while already
`connecting` or `connected` (peer handle live, `remotePeerId` non-empty) is
not guarded: it re-enters `connecting` and re-arms the single connection
timeout timer, clearing the previous one; the peer handle and every other
field are untouched, so no second peer session is opened. -/
theorem connect_reentrant_behavior (p : Params) (s : ManagerState)
    (hp : s.peer = true) (hr : p.remotePeerId ≠ "")
    (_hs : s.status.state = ConnState.connecting ∨
      s.status.state = ConnState.connected) :
    connectStart p s =
      { s with status := { s.status with state := ConnState.connecting },
               connectionTimer := some p.timeout.connectionTimeout } := by
  have hcond : ¬(s.peer = false ∨ p.remotePeerId = "") := by
    simp [hp, hr]
  simp [connectStart, hcond]

/-- Witness for `connect_reentrant_behavior` at the reachable connected
state. -/
theorem connect_reentrant_behavior_witness :
    connectedState.peer = true ∧ defaultParams.remotePeerId ≠ "" ∧
    connectedState.status.state = ConnState.connected ∧
    connectStart defaultParams connectedState =
      { connectedState with
          status := { connectedState.status with state := ConnState.connecting },
          connectionTimer := some defaultParams.timeout.connectionTimeout } :=
  ⟨by decide, by decide, by decide,
   connect_reentrant_behavior defaultParams connectedState (by decide)
     (by decide) (Or.inr (by decide))⟩

/-- Claim C7: token acquisition is coalesced — a call that finds a pending
request returns that same request unchanged and issues no new underlying
acquisition; two calls from the idle state start exactly one acquisition
and return the same pending request; settling clears the pending slot. -/
theorem token_request_coalescing (s1 s2 : TokenModuleState) (q : Nat)
    (h1 : s1.tokenRequestPromise = some q)
    (h2 : s2.tokenRequestPromise = none) :
    requestForToken s1 = (q, s1) ∧
    (requestForToken s2).2.providerCalls = s2.providerCalls + 1 ∧
    (requestForToken (requestForToken s2).2).1 = (requestForToken s2).1 ∧
    (requestForToken (requestForToken s2).2).2 = (requestForToken s2).2 ∧
    (settleTokenRequest (requestForToken s2).2).tokenRequestPromise = none := by
  refine ⟨?_, ?_, ?_, ?_, ?_⟩ <;>
    simp [requestForToken, settleTokenRequest, h1, h2]

/-- Witness for `token_request_coalescing` at concrete module states. -/
theorem token_request_coalescing_witness :
    ({ tokenRequestPromise := some 7, providerCalls := 1, nextPromiseId := 8 } :
      TokenModuleState).tokenRequestPromise = some 7 ∧
    ({} : TokenModuleState).tokenRequestPromise = none ∧
    requestForToken
        { tokenRequestPromise := some 7, providerCalls := 1, nextPromiseId := 8 } =
      (7, { tokenRequestPromise := some 7, providerCalls := 1, nextPromiseId := 8 }) ∧
    (requestForToken ({} : TokenModuleState)).2.providerCalls = 1 := by
  have h := token_request_coalescing
    { tokenRequestPromise := some 7, providerCalls := 1, nextPromiseId := 8 }
    {} 7 rfl rfl
  exact ⟨rfl, rfl, h.1, h.2.1⟩

/-- Each key code unit is below 2^16. -/
theorem keyCodeAt_lt (i : Nat) : keyCodeAt i < 65536 := by
  have hlen : 0 < encryptionKey.length := by decide
  have h : i % encryptionKey.length < encryptionKey.length := Nat.mod_lt _ hlen
  have hb : ∀ j < encryptionKey.length, encryptionKey.getD j 0 < 65536 := by decide
  exact hb _ h

/-- Applying the keyed XOR map twice from the same start index is the
identity on lists of UTF-16 code units. -/
theorem xorWithKey_involutive :
    ∀ (t : List Nat) (i : Nat), (∀ c ∈ t, c < 65536) →
      xorWithKey i (xorWithKey i t) = t := by
  intro t
  induction t with
  | nil => intro i _; rfl
  | cons c rest ih =>
      intro i h
      have hc : c < 65536 := h c (List.mem_cons_self c rest)
      have hk : keyCodeAt i < 65536 := keyCodeAt_lt i
      have hx : c ^^^ keyCodeAt i < 65536 := by
        have h16 : (65536 : Nat) = 2 ^ 16 := by norm_num
        rw [h16] at hc hk ⊢
        exact Nat.xor_lt_two_pow hc hk
      have htail : ∀ x ∈ rest, x < 65536 := fun x hx' =>
        h x (List.mem_cons_of_mem _ hx')
      show ((c ^^^ keyCodeAt i) % 65536 ^^^ keyCodeAt i) % 65536 ::
      xorWithKey (i + 1) (xorWithKey (i + 1) rest) = c :: rest
      rw [Nat.mod_eq_of_lt hx, Nat.xor_assoc, Nat.xor_self, Nat.xor_zero,
        Nat.mod_eq_of_lt hc, ih (i + 1) htail]

/-- Claim C10: the token storage encryption round-trips — for every token
(a list of UTF-16 code units, each below 2^16),
`decryptToken (encryptToken t) = t`. -/
theorem encrypt_decrypt_roundtrip (t : List Nat) (h : ∀ c ∈ t, c < 65536) :
    decryptToken (encryptToken t) = t :=
  xorWithKey_involutive t 0 h

/-- Witness for `encrypt_decrypt_roundtrip` at a concrete token. -/
theorem encrypt_decrypt_roundtrip_witness :
    (∀ c ∈ ([104, 105, 33] : List Nat), c < 65536) ∧
    decryptToken (encryptToken [104, 105, 33]) = [104, 105, 33] :=
  ⟨by decide, encrypt_decrypt_roundtrip _ (by decide)⟩

end WalkieLazy

namespace TokenValidator

/-- Claim C8: `validateToken` accepts a token exactly when the format is
right (length 50-500), the token is not blacklisted, it is registered, it
is not marked invalidated, and it is at most 24 hours old (the sixth check,
`isTokenValidInMessaging`, is constantly true). Stated with the admin
handle available, as the remote checks presuppose. -/
theorem validateToken_iff_conditions (env : ValidationEnv) (token : String)
    (h : env.adminReady = true) :
    validateToken env token = true ↔
      ((50 ≤ token.length ∧ token.length ≤ 500) ∧
       token ∉ env.blacklist ∧
       ∃ r, env.tokens.lookup token = some r ∧ r.invalidated = false ∧
         env.now - r.createdAt ≤ TOKEN_EXPIRATION_TIME) := by
  unfold validateToken isValidTokenFormat isTokenBlacklisted isTokenInFirebase
    isTokenInvalidated isTokenExpired isTokenValidInMessaging
  rw [h]
  cases hl : env.tokens.lookup token with
  | none => simp [hl]
  | some r => simp [hl, Nat.not_lt, and_assoc]

/-- Witness for `validateToken_iff_conditions` at a concrete registry. -/
theorem validateToken_iff_conditions_witness :
    sampleEnv.adminReady = true ∧ validateToken sampleEnv sampleToken = true :=
  ⟨rfl,
   (validateToken_iff_conditions sampleEnv sampleToken rfl).mpr
     ⟨by decide, by decide,
      ⟨{ createdAt := 0, invalidated := false }, by decide, rfl, by decide⟩⟩⟩

end TokenValidator

namespace RateLimiter

/-- Claim C9: evaluating `rateLimit` at the failing input. The first
registration check from a fresh store is allowed with the accounting
fields, but the very next check from the same caller finds a non-empty
store and the cleanup loop reads
`RATE_LIMITS[storeKey.split('_')[1]].windowMs` =
`RATE_LIMITS["token"].windowMs` of `undefined`, raising a `TypeError` —
instead of the allowed/denied accounting that the claim (and the test file
`src/test/rateLimiter.test.ts` of the repository) requires. -/
theorem rateLimit_cleanup_type_error :
    rateLimit "client" "token_registration" 0 [] =
      .ok ({ allowed := true, remaining := some 9, reset := some 900000 },
           [("client_token_registration", { count := 1, windowStart := 0 })]) ∧
    rateLimit "client" "token_registration" 1
        [("client_token_registration", { count := 1, windowStart := 0 })] =
      .error "TypeError: Cannot read properties of undefined (reading windowMs)" :=
  ⟨rfl, rfl⟩

end RateLimiter

namespace WalkieLazy

/-- Claim C6 counterexample: with the peer handle never opened (reachable
via a failed `initializePeer`), an online event in `error` with
`autoReconnect` moves to `reconnecting` but never on to `connecting`,
because the `connectToRemotePeer` it invokes is a no-op without a peer
handle. -/
theorem online_recovery_counterexample :
    Reachable defaultParams
      (runEvents defaultParams (initState true) [.initPeerEv false]) ∧
    (runEvents defaultParams (initState true) [.initPeerEv false]).status.state =
      ConnState.error ∧
    defaultParams.autoReconnect = true ∧
    (step defaultParams (runEvents defaultParams (initState true) [.initPeerEv false])
      (.online true)).status.state = ConnState.reconnecting ∧
    (step defaultParams (runEvents defaultParams (initState true) [.initPeerEv false])
      (.online true)).status.state ≠ ConnState.connecting := by
  refine ⟨?_, by decide, rfl, by decide, by decide⟩
  show Reachable defaultParams
    (step defaultParams (initState true) (.initPeerEv false))
  exact Reachable.step _ (Reachable.init true)

/-- Claim C6 (amended): an online event while `state = error` with
`autoReconnect` resets `retryCount` to 0 (whatever its prior value),
clears the error kind and moves through `reconnecting` on to `connecting`
provided the peer handle is open and `remotePeerId` is non-empty
(otherwise it stops at `reconnecting`); an online or offline event in any
other situation only mirrors the new online value into the status
`isOnline` field and the `connectionStatus` field of the token manager. -/
theorem online_recovery_behavior (p : Params) (s : ManagerState) :
    (s.status.state = ConnState.error → p.autoReconnect = true →
      s.peer = true → p.remotePeerId ≠ "" →
      (handleOnlineStatusChange p true s).status.state = ConnState.connecting ∧
      (handleOnlineStatusChange p true s).status.retryCount = 0 ∧
      (handleOnlineStatusChange p true s).status.error = none) ∧
    (∀ b : Bool, ¬(b = true ∧ s.status.state = ConnState.error ∧
        p.autoReconnect = true) →
      handleOnlineStatusChange p b s =
        { s with status := { s.status with isOnline := b },
                 tokenManager := { s.tokenManager with connectionStatus := b } }) := by
  constructor
  · intro hs ha hp hr
    simp [handleOnlineStatusChange, hs, ha, connectStart, hp, hr]
  · intro b hb
    simp [handleOnlineStatusChange, hb]

/-- Witness for `online_recovery_behavior` at the reachable error state
with a live peer handle. -/
theorem online_recovery_behavior_witness :
    errorState.status.state = ConnState.error ∧
    defaultParams.autoReconnect = true ∧
    errorState.peer = true ∧
    defaultParams.remotePeerId ≠ "" ∧
    (handleOnlineStatusChange defaultParams true errorState).status.state =
      ConnState.connecting ∧
    (handleOnlineStatusChange defaultParams true errorState).status.retryCount = 0 ∧
    handleOnlineStatusChange defaultParams false errorState =
      { errorState with
          status := { errorState.status with isOnline := false },
          tokenManager :=
            { errorState.tokenManager with connectionStatus := false } } := by
  have h := online_recovery_behavior defaultParams errorState
  have h1 := h.1 (by decide) rfl (by decide) (by decide)
  have h2 := h.2 false (by decide)
  exact ⟨by decide, rfl, by decide, by decide, h1.1, h1.2.1, h2⟩

/-- `scheduleRetry` preserves the error-kind invariant. -/
theorem errorKindSet_scheduleRetry (p : Params) {s : ManagerState}
    (h : errorKindSet s) : errorKindSet (scheduleRetry p s) := by
  unfold scheduleRetry
  split
  · intro _; rfl
  · exact h

/-- `connectStart` preserves the error-kind invariant. -/
theorem errorKindSet_connectStart (p : Params) {s : ManagerState}
    (h : errorKindSet s) : errorKindSet (connectStart p s) := by
  unfold connectStart
  split
  · exact h
  · intro hst
    exact ConnState.noConfusion hst

/-- Every event of the manager preserves the error-kind invariant. -/
theorem errorKindSet_step (p : Params) {s : ManagerState} (e : Event)
    (h : errorKindSet s) : errorKindSet (step p s e) := by
  cases e with
  | initPeerEv ok =>
      show errorKindSet (initPeer p ok s)
      unfold initPeer
      split
      · intro _; rfl
      · split
        · exact h
        · intro _; rfl
  | peerOpenEv =>
      show errorKindSet (peerOpen p s)
      unfold peerOpen
      split
      · intro hst; exact ConnState.noConfusion hst
      · exact h
  | peerErrorEvt msg =>
      show errorKindSet (peerErrorEv msg s)
      unfold peerErrorEv
      split
      · intro _; rfl
      · exact h
  | peerCloseEvt =>
      show errorKindSet (peerCloseEv s)
      unfold peerCloseEv
      split
      · intro hst; exact ConnState.noConfusion hst
      · exact h
  | connect => exact errorKindSet_connectStart p h
  | connTimeout =>
      show errorKindSet (connectionTimeoutFire p s)
      unfold connectionTimeoutFire
      split
      · exact h
      · split
        · exact errorKindSet_scheduleRetry p (fun _ => rfl)
        · intro _; rfl
  | connOk =>
      show errorKindSet (connectOk p s)
      unfold connectOk
      split
      · exact h
      · intro hst; exact ConnState.noConfusion hst
  | retryTimerFire =>
      show errorKindSet (retryFire p s)
      unfold retryFire
      split
      · exact h
      · exact errorKindSet_connectStart p (fun hst => ConnState.noConfusion hst)
  | keepAliveTimerFire =>
      show errorKindSet (keepAliveFire p s)
      unfold keepAliveFire
      split
      · exact h
      · split
        · exact h
        · exact h
  | online b =>
      show errorKindSet (handleOnlineStatusChange p b s)
      unfold handleOnlineStatusChange
      split
      · exact errorKindSet_connectStart p (fun hst => ConnState.noConfusion hst)
      · exact h
  | disconnectEv b => intro hst; exact ConnState.noConfusion hst
  | tokenInitOk tok valid b => exact h
  | tokenInitFail msg => exact h
  | tokenValidationTimerFire valid =>
      show errorKindSet (tokenValidationFire p valid s)
      unfold tokenValidationFire
      split
      · exact h
      · split
        · split
          · exact h
          · exact h
        · exact h

/-- Claim C1 counterexample: a reachable state (connect, timeout, retry
fires) where `retryCount = 1 > 0` while the state is `connecting` — neither
`error` nor `reconnecting` — and where the error kind is still present
although `state ≠ error`; both directions of the claimed invariant fail. -/
theorem connection_invariant_counterexample :
    Reachable defaultParams (runEvents defaultParams (initState true)
      [.initPeerEv true, .connect, .connTimeout, .retryTimerFire]) ∧
    (runEvents defaultParams (initState true)
      [.initPeerEv true, .connect, .connTimeout, .retryTimerFire]).status.retryCount
      > 0 ∧
    (runEvents defaultParams (initState true)
      [.initPeerEv true, .connect, .connTimeout, .retryTimerFire]).status.state ≠
      ConnState.error ∧
    (runEvents defaultParams (initState true)
      [.initPeerEv true, .connect, .connTimeout, .retryTimerFire]).status.state ≠
      ConnState.reconnecting ∧
    (runEvents defaultParams (initState true)
      [.initPeerEv true, .connect, .connTimeout, .retryTimerFire]).status.error.isSome := by
  refine ⟨?_, by decide, by decide, by decide, by decide⟩
  show Reachable defaultParams
    (step defaultParams (step defaultParams (step defaultParams
      (step defaultParams (initState true) (.initPeerEv true)) .connect)
      .connTimeout) .retryTimerFire)
  exact Reachable.step _ (Reachable.step _ (Reachable.step _
    (Reachable.step _ (Reachable.init true))))

/-- Claim C1 (amended): in every reachable manager state, the error kind is
present whenever `state = error`, and every operation preserves this. The
converse of the spec and its `retryCount` clause fail: the error kind can remain
present after leaving `error`, and `retryCount > 0` can hold while
`connecting` or `connected`, since `retryCount` is only reset by the peer
`open` handler, network-restore recovery and `disconnect`. -/
theorem connection_error_kind_invariant (p : Params) (s : ManagerState)
    (h : Reachable p s) :
    s.status.state = ConnState.error → s.status.error.isSome := by
  induction h with
  | init b => intro hst; exact ConnState.noConfusion hst
  | step e _ ih => exact errorKindSet_step p e ih

/-- Witness for `connection_error_kind_invariant` at the reachable
timed-out state. -/
theorem connection_error_kind_invariant_witness :
    errorState.status.state = ConnState.error ∧
    errorState.status.error.isSome := by
  refine ⟨by decide, ?_⟩
  have hr : Reachable defaultParams errorState := by
    show Reachable defaultParams
      (step defaultParams (step defaultParams (step defaultParams
        (initState true) (.initPeerEv true)) .connect) .connTimeout)
    exact Reachable.step _ (Reachable.step _ (Reachable.step _
      (Reachable.init true)))
  exact connection_error_kind_invariant defaultParams errorState hr (by decide)

end WalkieLazy
